import Mathlib

/-!
Shallow embedding of the core control and audio-scheduling logic of the
`gabzmusikbox` repository (main controller in `src/index.tsx`, shared types in
the unnamed types module). Clock times and chunk durations are rationals;
the asynchronous outcome of each remote request (success or failure) is passed
in as an explicit Boolean parameter, and the outbound commands issued so far
are accumulated in a list on the state.
-/

namespace MusicBox

/-- PlaybackState from the types module: stopped, playing, loading, paused. -/
inductive PlaybackState
  | stopped
  | playing
  | loading
  | paused
deriving DecidableEq, Repr

/-- The fixed closed set of drum stem names (DRUM_STEM_TYPES in the types module). -/
inductive DrumStemType
  | KICK
  | SNARE
  | CLOSED_HI_HAT
  | OPEN_HI_HAT
  | LOW_TOM
  | MID_TOM
  | HIGH_TOM
  | CRASH_CYMBAL
  | RIDE_CYMBAL
  | PERCUSSION
deriving DecidableEq, Repr

/-- DRUM_STEM_TYPES as the ordered list used by setSessionDrumMix. -/
def DRUM_STEM_TYPES : List DrumStemType :=
  [.KICK, .SNARE, .CLOSED_HI_HAT, .OPEN_HI_HAT, .LOW_TOM,
   .MID_TOM, .HIGH_TOM, .CRASH_CYMBAL, .RIDE_CYMBAL, .PERCUSSION]

/-- Prompt record from the types module. -/
structure Prompt where
  promptId : String
  text : String
  weight : ℚ
  cc : Nat
  color : String
deriving DecidableEq, Repr

/-- Outbound commands issued on the live session handle. -/
inductive Command
  | connect
  | setWeightedPrompts (weightedPrompts : List Prompt)
  | setDrumMix (drumMix : List (DrumStemType × ℚ))
  | play
  | pause
  | stop
deriving DecidableEq, Repr

/-- What the onmessage audio-chunk handler did with one decoded chunk. -/
inductive ChunkOutcome
  | dropped
  | underrun
  | scheduled (start : ℚ)
deriving DecidableEq, Repr

/-- True exactly on the scheduled outcome. -/
def ChunkOutcome.isScheduled : ChunkOutcome → Bool
  | .scheduled _ => true
  | _ => false

/-- The mutable fields of the PromptDjMidi controller that the core logic
reads and writes: playback state, the scheduler bookkeeping, the connection
flags, the prompt map (as a list), the filtered-prompt set (as a list of
texts), the drum mix settings, the output gain target, the pending lookahead
timers (fire times), the toasts shown so far, and the outbound commands
issued so far. -/
structure AppState where
  playbackState : PlaybackState
  nextStartTime : ℚ
  connectionError : Bool
  sessionReady : Bool
  prompts : List Prompt
  filteredPrompts : List String
  drumMixSettings : DrumStemType → Option ℚ
  outputGain : ℚ
  lookaheadTimers : List ℚ
  toasts : List String
  commands : List Command

/-- The fixed lookahead, bufferTime = 2 seconds. -/
def bufferTime : ℚ := 2

/-- DEFAULT_DRUM_MIX_SETTINGS from the controller. -/
def defaultDrumMixSettings : DrumStemType → ℚ
  | .KICK => 3/4
  | .SNARE => 3/4
  | .CLOSED_HI_HAT => 3/5
  | .OPEN_HI_HAT => 1/2
  | .LOW_TOM => 2/5
  | .MID_TOM => 2/5
  | .HIGH_TOM => 2/5
  | .CRASH_CYMBAL => 1/2
  | .RIDE_CYMBAL => 1/2
  | .PERCUSSION => 1/2

/-- Record a toast shown through the toast component. -/
def addToast (msg : String) (s : AppState) : AppState :=
  { s with toasts := s.toasts ++ [msg] }

/-- Record an outbound command issued on the session handle. -/
def sendCommand (c : Command) (s : AppState) : AppState :=
  { s with commands := s.commands ++ [c] }

/-- getPromptsToSend: keep the prompts whose text is not filtered and whose
weight is not 0 (lines 489 to 494 of the controller). -/
def getPromptsToSend (s : AppState) : List Prompt :=
  s.prompts.filter (fun p =>
    decide (p.text ∉ s.filteredPrompts) && decide (p.weight ≠ 0))

/-- pause (lines 720 to 730): send a remote pause when connected, set state
paused, ramp the gain to 0 and replace the output node (modelled as gain 0),
and reset nextStartTime to the unset sentinel 0. -/
def pause (s : AppState) : AppState :=
  if s.sessionReady && !s.connectionError then
    { s with playbackState := .paused, outputGain := 0, nextStartTime := 0,
             commands := s.commands ++ [Command.pause] }
  else
    { s with playbackState := .paused, outputGain := 0, nextStartTime := 0 }

/-- play (lines 732 to 749): refuse without a session; refuse and pause when
no prompt is active; otherwise send a remote play when connected, set state
loading and ramp the gain to 1. -/
def play (s : AppState) : AppState :=
  if !s.sessionReady then
    addToast "Session not ready. Please wait or try reconnecting." s
  else if getPromptsToSend s = [] then
    pause (addToast "Add some sound flavor! Turn up a knob to play music." s)
  else if s.sessionReady && !s.connectionError then
    { s with playbackState := .loading, outputGain := 1,
             commands := s.commands ++ [Command.play] }
  else
    { s with playbackState := .loading, outputGain := 1 }

/-- stop (lines 751 to 755): send a remote stop when connected, set state
stopped and reset nextStartTime. -/
def stop (s : AppState) : AppState :=
  if s.sessionReady && !s.connectionError then
    { s with playbackState := .stopped, nextStartTime := 0,
             commands := s.commands ++ [Command.stop] }
  else
    { s with playbackState := .stopped, nextStartTime := 0 }

/-- Body of the throttled setSessionPrompts (lines 496 to 512). The `fails`
parameter is the outcome of the awaited setWeightedPrompts request; on
failure the catch shows the error message and pauses. -/
def setSessionPromptsBody (fails : Bool) (errMsg : String) (s : AppState) : AppState :=
  if s.connectionError || !s.sessionReady then s
  else if getPromptsToSend s = [] then
    pause (addToast "There needs to be one active prompt to play." s)
  else if fails then
    pause (addToast errMsg
      { s with commands := s.commands ++ [Command.setWeightedPrompts (getPromptsToSend s)] })
  else
    { s with commands := s.commands ++ [Command.setWeightedPrompts (getPromptsToSend s)] }

/-- The drumMixToSend map built by setSessionDrumMix (lines 519 to 522):
every stem in DRUM_STEM_TYPES gets an explicit value, defaulting to 0.0 when
the settings have no entry for it. -/
def drumMixToSend (mix : DrumStemType → Option ℚ) : List (DrumStemType × ℚ) :=
  DRUM_STEM_TYPES.map (fun stem => (stem, (mix stem).getD 0))

/-- Body of the throttled setSessionDrumMix (lines 514 to 531). On failure
the catch shows a toast but, unlike setSessionPrompts, does not pause. -/
def setSessionDrumMixBody (fails : Bool) (errMsg : String) (s : AppState) : AppState :=
  if s.connectionError || !s.sessionReady then s
  else if fails then
    addToast ("Error setting drum mix: " ++ errMsg)
      { s with commands := s.commands ++ [Command.setDrumMix (drumMixToSend s.drumMixSettings)] }
  else
    { s with commands := s.commands ++ [Command.setDrumMix (drumMixToSend s.drumMixSettings)] }

/-- The audio-chunk branch of the onmessage callback (lines 442 to 467),
for one decoded chunk of duration `dur` arriving when the audio clock reads
`now`. Translated branch by branch: the first-chunk priming (nextStartTime
equal to the sentinel 0) sets nextStartTime to now + bufferTime and arms the
unconditional state timer; the underrun test on the primed value
(now + bufferTime < now) is inlined in that branch and can never fire there. -/
def onAudioChunk (s : AppState) (now dur : ℚ) : AppState × ChunkOutcome :=
  if s.playbackState = PlaybackState.paused ∨ s.playbackState = PlaybackState.stopped then
    (s, .dropped)
  else if s.nextStartTime = 0 then
    if now + bufferTime < now then
      ({ s with playbackState := .loading, nextStartTime := 0,
                lookaheadTimers := s.lookaheadTimers ++ [now + bufferTime] }, .underrun)
    else
      ({ s with nextStartTime := now + bufferTime + dur,
                lookaheadTimers := s.lookaheadTimers ++ [now + bufferTime] },
       .scheduled (now + bufferTime))
  else if s.nextStartTime < now then
    ({ s with playbackState := .loading, nextStartTime := 0 }, .underrun)
  else
    ({ s with nextStartTime := s.nextStartTime + dur }, .scheduled s.nextStartTime)

/-- The setTimeout callback armed by the first-chunk priming (lines 455 to
457): it sets the playback state to playing with no condition at all. -/
def fireLookaheadTimer (s : AppState) : AppState :=
  { s with playbackState := .playing }

/-- The filteredPrompt branch of onmessage (lines 438 to 441): add the text
to the filtered set and toast the reason. -/
def onFilteredPromptMsg (text filteredReason : String) (s : AppState) : AppState :=
  addToast filteredReason
    { s with filteredPrompts :=
        if text ∈ s.filteredPrompts then s.filteredPrompts
        else s.filteredPrompts ++ [text] }

/-- The onerror and onclose callbacks and the connect catch (lines 469 to
486): mark the connection errored, run stop, and toast. Because the errored
flag is set first, stop sends no remote command. -/
def onConnectionError (msg : String) (s : AppState) : AppState :=
  addToast msg (stop { s with connectionError := true })

/-- The setupComplete branch of onmessage (lines 434 to 437): clear the
errored flag and push the drum mix. -/
def onSetupComplete (dFails : Bool) (dErr : String) (s : AppState) : AppState :=
  setSessionDrumMixBody dFails dErr { s with connectionError := false }

/-- Possible outcomes of one connectToSession attempt, passed in explicitly:
the connect await threw, or it resolved (with or without the setupComplete
message having been handled by the time the caller looks at the flags). -/
inductive ConnectOutcome
  | failed (errMsg : String)
  | opened
  | openedSetupComplete (dFails : Bool) (dErr : String)

/-- connectToSession (lines 428 to 487) with its outcome made explicit. -/
def connectToSessionModel (outcome : ConnectOutcome) (s : AppState) : AppState :=
  match outcome with
  | .failed errMsg =>
      onConnectionError ("Failed to connect to music session: " ++ errMsg)
        (sendCommand Command.connect s)
  | .opened => sendCommand Command.connect { s with sessionReady := true }
  | .openedSetupComplete dFails dErr =>
      onSetupComplete dFails dErr (sendCommand Command.connect { s with sessionReady := true })

/-- The continuation of handlePlayPause after the reconnect attempt (lines
764 to 773): on success push prompts and drum mix then play, otherwise toast
and force stopped. -/
def afterReconnect (pFails dFails : Bool) (pErr dErr : String) (s2 : AppState) : AppState :=
  if !s2.connectionError && s2.sessionReady then
    play (setSessionDrumMixBody dFails dErr (setSessionPromptsBody pFails pErr s2))
  else
    { (addToast "Failed to reconnect Lyria. Please check console." s2)
      with playbackState := .stopped }

/-- handlePlayPause (lines 757 to 777). -/
def handlePlayPause (outcome : ConnectOutcome) (pFails dFails : Bool)
    (pErr dErr : String) (s : AppState) : AppState :=
  if s.playbackState = PlaybackState.playing then pause s
  else if s.playbackState = PlaybackState.paused ∨ s.playbackState = PlaybackState.stopped then
    if s.connectionError || !s.sessionReady then
      afterReconnect pFails dFails pErr dErr
        (connectToSessionModel outcome (addToast "Reconnecting Lyria session..." s))
    else play s
  else if s.playbackState = PlaybackState.loading then stop s
  else s

/-- resetAll (lines 794 to 801): replace the prompts with freshly built
defaults (the shuffled result is passed in, externalizing the randomness),
which dispatches a prompt push; restore the default drum mix settings and
push them; toast. The filtered-prompt set is not touched. -/
def resetAll (newPrompts : List Prompt) (pFails dFails : Bool)
    (pErr dErr : String) (s : AppState) : AppState :=
  addToast "✨ Fresh Start! All sound shapers and drum mix reset. Lyrics pad cleared."
    (setSessionDrumMixBody dFails dErr
      { (setSessionPromptsBody pFails pErr { s with prompts := newPrompts })
        with drumMixSettings := fun stem => some (defaultDrumMixSettings stem) })

/-- Deliver a list of chunks, each a pair of arrival clock time and duration,
to the onmessage handler in order, collecting the outcomes. -/
def runChunks (s : AppState) : List (ℚ × ℚ) → AppState × List ChunkOutcome
  | [] => (s, [])
  | c :: cs =>
    ((runChunks (onAudioChunk s c.1 c.2).1 cs).1,
     (onAudioChunk s c.1 c.2).2 :: (runChunks (onAudioChunk s c.1 c.2).1 cs).2)

/-- The start times of the scheduled outcomes, in order. -/
def scheduledStarts (outs : List ChunkOutcome) : List ℚ :=
  outs.filterMap (fun o => match o with | .scheduled st => some st | _ => none)

/-- Modelled from the spec: the throttle utility (src/utils/throttle) that
wraps setSessionPrompts and setSessionDrumMix is not under src/. Per the
spec, edits may arrive at arbitrary frequency, at most one outbound push per
fixed interval is sent, the push carries the latest state at trigger time,
and a trailing push fires after the interval even if no further edits occur.
Each edit is a pair of its time and the state it leaves behind; an edit with
no window open opens a window of length `interval` and the single push for
that window fires at its end with the latest edited state. -/
def throttlePushes {α : Type} (interval : ℚ) : List (ℚ × α) → List (ℚ × α)
  | [] => []
  | e :: rest =>
    (e.1 + interval,
      ((rest.takeWhile (fun x => decide (x.1 < e.1 + interval))).map Prod.snd).getLastD e.2)
    :: throttlePushes interval (rest.dropWhile (fun x => decide (x.1 < e.1 + interval)))
termination_by l => l.length
decreasing_by
  simp only [List.length_cons]
  exact Nat.lt_succ_of_le (List.dropWhile_suffix _).length_le

/-- A default-style prompt with a nonzero weight. -/
def promptA : Prompt :=
  { promptId := "prompt-0", text := "Bossa Nova", weight := 1, cc := 0, color := "#9900ff" }

/-- A prompt with weight exactly 0. -/
def promptZero : Prompt :=
  { promptId := "prompt-1", text := "Chillwave", weight := 0, cc := 1, color := "#5200ff" }

/-- A prompt whose text appears in the filtered set of baseState. -/
def promptDub : Prompt :=
  { promptId := "prompt-11", text := "Dubstep", weight := 1, cc := 11, color := "#ffdd28" }

/-- A connected, playing state used to instantiate the theorems. -/
def baseState : AppState :=
  { playbackState := .playing
    nextStartTime := 10
    connectionError := false
    sessionReady := true
    prompts := [promptA, promptZero, promptDub]
    filteredPrompts := ["Dubstep"]
    drumMixSettings := fun _ => none
    outputGain := 1
    lookaheadTimers := []
    toasts := []
    commands := [] }

/-- A loading state with the scheduler sentinel unset, as right after play. -/
def loadingState : AppState :=
  { baseState with playbackState := .loading, nextStartTime := 0 }

/-- A connected state whose only prompt has weight 0. -/
def noActiveState : AppState :=
  { baseState with playbackState := .paused, prompts := [promptZero] }

/-- What one scheduled outcome says about the handler step: the new
nextStartTime is the scheduled start plus the duration, the start is not
earlier than the clock, the playback state is untouched, and when the
sentinel was already set the chunk started exactly at it. -/
lemma onAudioChunk_scheduled_spec {s s1 : AppState} {now dur st : ℚ}
    (h : onAudioChunk s now dur = (s1, ChunkOutcome.scheduled st)) :
    s1.nextStartTime = st + dur ∧ now ≤ st ∧
    s1.playbackState = s.playbackState ∧
    (s.nextStartTime ≠ 0 → st = s.nextStartTime) := by
  by_cases h1 : s.playbackState = PlaybackState.paused ∨ s.playbackState = PlaybackState.stopped
  · simp [onAudioChunk, h1] at h
  · by_cases h2 : s.nextStartTime = 0
    · by_cases h3 : now + bufferTime < now
      · simp [onAudioChunk, h1, h2, h3] at h
      · simp only [onAudioChunk, if_neg h1, if_pos h2, if_neg h3, Prod.mk.injEq,
          ChunkOutcome.scheduled.injEq] at h
        obtain ⟨hs, hst⟩ := h
        subst hst
        refine ⟨by rw [← hs], not_lt.mp h3, by rw [← hs], fun hc => absurd h2 hc⟩
    · by_cases h4 : s.nextStartTime < now
      · simp [onAudioChunk, h1, h2, h4] at h
      · simp only [onAudioChunk, if_neg h1, if_neg h2, if_neg h4, Prod.mk.injEq,
          ChunkOutcome.scheduled.injEq] at h
        obtain ⟨hs, hst⟩ := h
        subst hst
        exact ⟨by rw [← hs], not_lt.mp h4, by rw [← hs], fun _ => rfl⟩

/-- A scheduled flag comes only from the scheduled constructor. -/
lemma isScheduled_eq_true {o : ChunkOutcome} (h : o.isScheduled = true) :
    ∃ st, o = ChunkOutcome.scheduled st := by
  cases o <;> simp [ChunkOutcome.isScheduled] at h ⊢

/-- C1: for every sequence of decoded chunks delivered while the playback
state is playing or loading and no underrun occurs (every outcome is a
scheduled one), with nonnegative arrival clock times and positive durations,
each chunk starts exactly at the current nextStartTime and the start times
are contiguous: for every adjacent pair, the later start equals the earlier
start plus the earlier duration, with no gap and no overlap. -/
theorem scheduler_contiguous (s0 : AppState) (chunks : List (ℚ × ℚ))
    (hpos : ∀ c ∈ chunks, 0 ≤ c.1 ∧ 0 < c.2)
    (hall : ∀ o ∈ (runChunks s0 chunks).2, o.isScheduled = true) :
    List.Chain' (fun a b => b.1 = a.1 + a.2)
      ((scheduledStarts (runChunks s0 chunks).2).zip (chunks.map Prod.snd)) := by
  induction chunks generalizing s0 with
  | nil => simp [runChunks, scheduledStarts]
  | cons c cs ih =>
    have hmem1 : (onAudioChunk s0 c.1 c.2).2 ∈ (runChunks s0 (c :: cs)).2 := by
      simp [runChunks]
    obtain ⟨st1, hst1⟩ := isScheduled_eq_true (hall _ hmem1)
    have hstep1 : onAudioChunk s0 c.1 c.2
        = ((onAudioChunk s0 c.1 c.2).1, ChunkOutcome.scheduled st1) := by
      rw [← hst1]
    have hspec1 := onAudioChunk_scheduled_spec hstep1
    have hruneq : (runChunks s0 (c :: cs)).2
        = ChunkOutcome.scheduled st1 :: (runChunks (onAudioChunk s0 c.1 c.2).1 cs).2 := by
      simp [runChunks, hst1]
    have hposTail : ∀ x ∈ cs, 0 ≤ x.1 ∧ 0 < x.2 :=
      fun x hx => hpos x (List.mem_cons_of_mem _ hx)
    have hallTail : ∀ o ∈ (runChunks (onAudioChunk s0 c.1 c.2).1 cs).2,
        o.isScheduled = true := by
      intro o ho
      exact hall o (by rw [hruneq]; exact List.mem_cons_of_mem _ ho)
    have ihc := ih (onAudioChunk s0 c.1 c.2).1 hposTail hallTail
    cases cs with
    | nil =>
      rw [hruneq]
      simp [runChunks, scheduledStarts]
    | cons c2 cs2 =>
      have hmem2 : (onAudioChunk (onAudioChunk s0 c.1 c.2).1 c2.1 c2.2).2
          ∈ (runChunks (onAudioChunk s0 c.1 c.2).1 (c2 :: cs2)).2 := by
        simp [runChunks]
      obtain ⟨st2, hst2⟩ := isScheduled_eq_true (hallTail _ hmem2)
      have hstep2 : onAudioChunk (onAudioChunk s0 c.1 c.2).1 c2.1 c2.2
          = ((onAudioChunk (onAudioChunk s0 c.1 c.2).1 c2.1 c2.2).1,
             ChunkOutcome.scheduled st2) := by
        rw [← hst2]
      have hspec2 := onAudioChunk_scheduled_spec hstep2
      have hc1 := hpos c (List.mem_cons_self _ _)
      have hne : (onAudioChunk s0 c.1 c.2).1.nextStartTime ≠ 0 := by
        rw [hspec1.1]
        have hle := hspec1.2.1
        have : (0:ℚ) < st1 + c.2 := by linarith [hc1.1, hc1.2]
        exact ne_of_gt this
      have hst2eq : st2 = st1 + c.2 := by
        rw [hspec2.2.2.2 hne, hspec1.1]
      have hrun2 : (runChunks (onAudioChunk s0 c.1 c.2).1 (c2 :: cs2)).2
          = ChunkOutcome.scheduled st2
            :: (runChunks (onAudioChunk (onAudioChunk s0 c.1 c.2).1 c2.1 c2.2).1 cs2).2 := by
        simp [runChunks, hst2]
      rw [hrun2] at ihc
      rw [hruneq, hrun2]
      simp only [scheduledStarts, List.filterMap_cons, List.map_cons,
        List.zip_cons_cons] at ihc ⊢
      exact List.chain'_cons.mpr ⟨by simpa using hst2eq, ihc⟩

/-- State after the first witness chunk: primed at 2, advanced to 4. -/
def wit1State : AppState := { loadingState with nextStartTime := 4, lookaheadTimers := [2] }

/-- State after the second witness chunk. -/
def wit2State : AppState := { loadingState with nextStartTime := 6, lookaheadTimers := [2] }

/-- State after the third witness chunk. -/
def wit3State : AppState := { loadingState with nextStartTime := 8, lookaheadTimers := [2] }

/-- Witness for scheduler_contiguous: three chunks of duration 2 arriving at
clock times 0, 1 and 2 from the primed loading state are scheduled at 2, 4
and 6. -/
theorem scheduler_contiguous_witness :
    List.Chain' (fun a b => b.1 = a.1 + a.2)
      ((scheduledStarts (runChunks loadingState
          [((0:ℚ), (2:ℚ)), (1, 2), (2, 2)]).2).zip
        (([((0:ℚ), (2:ℚ)), (1, 2), (2, 2)]).map Prod.snd)) :=
  scheduler_contiguous loadingState [((0:ℚ), (2:ℚ)), (1, 2), (2, 2)]
    (by norm_num)
    (by
      intro o ho
      have h1 : onAudioChunk loadingState 0 2 = (wit1State, ChunkOutcome.scheduled 2) := by
        norm_num [onAudioChunk, loadingState, baseState, wit1State, bufferTime]; decide
      have h2 : onAudioChunk wit1State 1 2 = (wit2State, ChunkOutcome.scheduled 4) := by
        norm_num [onAudioChunk, loadingState, baseState, wit1State, wit2State, bufferTime]; decide
      have h3 : onAudioChunk wit2State 2 2 = (wit3State, ChunkOutcome.scheduled 6) := by
        norm_num [onAudioChunk, loadingState, baseState, wit2State, wit3State, bufferTime]; decide
      simp [runChunks, h1, h2, h3] at ho
      rcases ho with rfl | rfl | rfl <;> rfl)

/-- pause always leaves the state paused. -/
lemma pause_playbackState (s : AppState) : (pause s).playbackState = PlaybackState.paused := by
  unfold pause
  split <;> rfl

/-- stop always leaves the state stopped. -/
lemma stop_playbackState (s : AppState) : (stop s).playbackState = PlaybackState.stopped := by
  unfold stop
  split <;> rfl

/-- The lookahead timer callback always leaves the state playing. -/
lemma fire_playbackState (s : AppState) :
    (fireLookaheadTimer s).playbackState = PlaybackState.playing := rfl

/-- C2: a chunk that arrives with nextStartTime set (not the 0 sentinel) and
earlier than the current clock time is dropped as an underrun: the handler
schedules nothing, transitions to loading, resets nextStartTime to the unset
sentinel and changes nothing else; the next chunk is then treated as a first
chunk and is scheduled bufferTime = 2 seconds after the then-current clock
time, re-priming the lookahead. -/
theorem underrun_drops_and_reprimes (s : AppState) (now dur now2 dur2 : ℚ)
    (hstate : ¬(s.playbackState = PlaybackState.paused ∨
                s.playbackState = PlaybackState.stopped))
    (hset : s.nextStartTime ≠ 0) (hlate : s.nextStartTime < now) :
    onAudioChunk s now dur
      = ({ s with playbackState := PlaybackState.loading, nextStartTime := 0 },
         ChunkOutcome.underrun) ∧
    (onAudioChunk (onAudioChunk s now dur).1 now2 dur2).2
      = ChunkOutcome.scheduled (now2 + bufferTime) ∧
    ((onAudioChunk (onAudioChunk s now dur).1 now2 dur2).1).nextStartTime
      = now2 + bufferTime + dur2 := by
  have hb : (0:ℚ) < bufferTime := by norm_num [bufferTime]
  have hnl : ¬ (now2 + bufferTime < now2) := by linarith
  have h1 : onAudioChunk s now dur
      = ({ s with playbackState := PlaybackState.loading, nextStartTime := 0 },
         ChunkOutcome.underrun) := by
    simp [onAudioChunk, hstate, hset, hlate]
  refine ⟨h1, ?_, ?_⟩ <;>
  · rw [h1]
    simp [onAudioChunk, hnl]

/-- Witness for underrun_drops_and_reprimes at the playing baseState with
nextStartTime 10, a chunk arriving at clock 11, and a follow-up at clock 20. -/
theorem underrun_drops_and_reprimes_witness :
    onAudioChunk baseState 11 2
      = ({ baseState with playbackState := PlaybackState.loading, nextStartTime := 0 },
         ChunkOutcome.underrun) ∧
    (onAudioChunk (onAudioChunk baseState 11 2).1 20 2).2
      = ChunkOutcome.scheduled (20 + bufferTime) ∧
    ((onAudioChunk (onAudioChunk baseState 11 2).1 20 2).1).nextStartTime
      = 20 + bufferTime + 2 :=
  underrun_drops_and_reprimes baseState 11 2 20 2
    (by decide) (by norm_num [baseState]) (by norm_num [baseState])

/-- C10: when a chunk primes the lookahead (loading state, sentinel unset),
a timer at now + bufferTime is armed, and its callback sets the playback
state to playing with no condition at all, so a pause or stop issued during
the lookahead window is overridden when the timer fires. -/
theorem lookahead_timer_overrides_pause (s : AppState) (now dur : ℚ)
    (hstate : s.playbackState = PlaybackState.loading)
    (hzero : s.nextStartTime = 0) :
    ((onAudioChunk s now dur).1).lookaheadTimers
      = s.lookaheadTimers ++ [now + bufferTime] ∧
    (pause ((onAudioChunk s now dur).1)).playbackState = PlaybackState.paused ∧
    (stop ((onAudioChunk s now dur).1)).playbackState = PlaybackState.stopped ∧
    (fireLookaheadTimer (pause ((onAudioChunk s now dur).1))).playbackState
      = PlaybackState.playing ∧
    (fireLookaheadTimer (stop ((onAudioChunk s now dur).1))).playbackState
      = PlaybackState.playing ∧
    (∀ t : AppState, (fireLookaheadTimer t).playbackState = PlaybackState.playing) := by
  have hns : ¬(s.playbackState = PlaybackState.paused ∨
               s.playbackState = PlaybackState.stopped) := by
    rw [hstate]; decide
  refine ⟨?_, pause_playbackState _, stop_playbackState _,
    fire_playbackState _, fire_playbackState _, fun t => fire_playbackState t⟩
  by_cases h3 : now + bufferTime < now <;> simp [onAudioChunk, hns, hzero, h3]

/-- Witness for lookahead_timer_overrides_pause at the primed loading state. -/
theorem lookahead_timer_overrides_pause_witness :
    ((onAudioChunk loadingState 0 2).1).lookaheadTimers
      = loadingState.lookaheadTimers ++ [0 + bufferTime] ∧
    (pause ((onAudioChunk loadingState 0 2).1)).playbackState = PlaybackState.paused ∧
    (stop ((onAudioChunk loadingState 0 2).1)).playbackState = PlaybackState.stopped ∧
    (fireLookaheadTimer (pause ((onAudioChunk loadingState 0 2).1))).playbackState
      = PlaybackState.playing ∧
    (fireLookaheadTimer (stop ((onAudioChunk loadingState 0 2).1))).playbackState
      = PlaybackState.playing ∧
    (∀ t : AppState, (fireLookaheadTimer t).playbackState = PlaybackState.playing) :=
  lookahead_timer_overrides_pause loadingState 0 2 rfl rfl

/-- Membership characterization of getPromptsToSend. -/
lemma mem_getPromptsToSend {s : AppState} {p : Prompt} :
    p ∈ getPromptsToSend s ↔
      p ∈ s.prompts ∧ p.weight ≠ 0 ∧ p.text ∉ s.filteredPrompts := by
  simp [getPromptsToSend, List.mem_filter]
  tauto

/-- C3: a setWeightedPrompts payload pushed by setSessionPrompts is exactly
getPromptsToSend, that is, exactly the prompts whose weight is not 0 and
whose text is not in the filtered set; in particular no weight-0 prompt and
no filtered-text prompt is ever part of an outbound prompt push. -/
theorem prompts_push_exactly_active (s : AppState) (fails : Bool) (errMsg : String)
    (ps : List Prompt) (hcmds : s.commands = [])
    (hmem : Command.setWeightedPrompts ps ∈ (setSessionPromptsBody fails errMsg s).commands) :
    ps = getPromptsToSend s ∧
    ∀ p, p ∈ ps ↔ (p ∈ s.prompts ∧ p.weight ≠ 0 ∧ p.text ∉ s.filteredPrompts) := by
  have hps : ps = getPromptsToSend s := by
    unfold setSessionPromptsBody at hmem
    by_cases h1 : s.connectionError || !s.sessionReady
    · rw [if_pos h1] at hmem
      rw [hcmds] at hmem
      simp at hmem
    · rw [if_neg h1] at hmem
      by_cases h2 : getPromptsToSend s = []
      · rw [if_pos h2] at hmem
        unfold pause addToast at hmem
        split at hmem <;> simp [hcmds] at hmem
      · rw [if_neg h2] at hmem
        by_cases h3 : fails
        · rw [if_pos h3] at hmem
          unfold pause addToast at hmem
          split at hmem <;> simp [hcmds] at hmem <;> exact hmem
        · rw [if_neg h3] at hmem
          simp [hcmds] at hmem
          exact hmem
  exact ⟨hps, fun p => by rw [hps]; exact mem_getPromptsToSend⟩

/-- Witness for prompts_push_exactly_active: in baseState the only prompt
pushed is promptA, the one with nonzero weight and unfiltered text. -/
theorem prompts_push_exactly_active_witness :
    [promptA] = getPromptsToSend baseState ∧
    ∀ p, p ∈ [promptA] ↔
      (p ∈ baseState.prompts ∧ p.weight ≠ 0 ∧ p.text ∉ baseState.filteredPrompts) :=
  prompts_push_exactly_active baseState false "" [promptA] rfl
    (by
      have hg : getPromptsToSend baseState = [promptA] := by
        simp [getPromptsToSend, baseState, promptA, promptZero, promptDub]
      unfold setSessionPromptsBody
      rw [hg]
      simp [baseState])

/-- C9: the drum mix normalized for transmission assigns an explicit numeric
value to every one of the ten fixed stem names: the stored value when the
key is present and the default 0 when it is absent, so no stem reaches the
wire without a value. -/
theorem drum_mix_total (mix : DrumStemType → Option ℚ) (stem : DrumStemType) :
    (drumMixToSend mix).lookup stem = some ((mix stem).getD 0) ∧
    stem ∈ DRUM_STEM_TYPES ∧
    (drumMixToSend (fun _ => none)).lookup stem = some 0 := by
  cases stem <;> exact ⟨rfl, by decide, rfl⟩

/-- C4 (spec-modelled throttle): for any burst of one or more edits all
falling within one throttle interval of the first, exactly one outbound push
occurs for that interval; it carries the state as of the last edit, never an
intermediate one, and it fires at the end of the interval, strictly after
every edit of the burst, so the final state is never dropped. Both
setSessionPrompts and setSessionDrumMix are wrapped with interval 200 ms. -/
theorem throttle_single_push {α : Type} (interval t0 : ℚ) (v0 : α)
    (rest : List (ℚ × α)) (hpos : 0 < interval)
    (hin : ∀ e ∈ rest, e.1 < t0 + interval) :
    throttlePushes interval ((t0, v0) :: rest)
      = [(t0 + interval, (((t0, v0) :: rest).map Prod.snd).getLastD v0)] ∧
    ∀ e ∈ (t0, v0) :: rest, e.1 < t0 + interval := by
  have htake : rest.takeWhile (fun x => decide (x.1 < t0 + interval)) = rest :=
    List.takeWhile_eq_self_iff.mpr (fun x hx => by simpa using hin x hx)
  have hdrop : rest.dropWhile (fun x => decide (x.1 < t0 + interval)) = [] :=
    List.dropWhile_eq_nil_iff.mpr (fun x hx => by simpa using hin x hx)
  constructor
  · simp only [throttlePushes]
    rw [htake, hdrop]
    simp only [throttlePushes, List.map_cons, List.getLastD_cons]
  · intro e he
    rcases List.mem_cons.mp he with rfl | hr
    · simpa using hpos
    · exact hin e hr

/-- Witness for throttle_single_push: three edits at 0, 50 and 100 ms within
one 200 ms interval produce the single trailing push at 200 with the last
edited value. -/
theorem throttle_single_push_witness :
    throttlePushes (200:ℚ) [((0:ℚ), (1:Nat)), (50, 2), (100, 3)]
      = [((0:ℚ) + 200, (([((0:ℚ), (1:Nat)), (50, 2), (100, 3)]).map Prod.snd).getLastD 1)] ∧
    ∀ e ∈ [((0:ℚ), (1:Nat)), (50, 2), (100, 3)], e.1 < 0 + 200 :=
  throttle_single_push 200 0 1 [(50, 2), (100, 3)] (by norm_num) (by norm_num)

/-- pause never changes the toast log. -/
lemma pause_toasts (s : AppState) : (pause s).toasts = s.toasts := by
  unfold pause
  split <;> rfl

/-- The commands issued by pause: a remote pause exactly when connected. -/
lemma pause_commands (s : AppState) :
    (pause s).commands
      = s.commands ++ (if s.sessionReady && !s.connectionError then [Command.pause] else []) := by
  unfold pause
  split <;> simp

/-- C5 counterexample: a failed setDrumMix request in the connected playing
baseState surfaces a toast but leaves the playback state playing, not
paused, so the claim that every failed command falls playback back to
paused is false at this input. -/
theorem drum_failure_not_paused :
    (setSessionDrumMixBody true "boom" baseState).playbackState
      = PlaybackState.playing ∧
    PlaybackState.playing ≠ PlaybackState.paused := by
  exact ⟨rfl, by decide⟩

/-- C5 (amended): a failed setWeightedPrompts request is caught at the
issuing boundary, surfaces its error message as a toast and falls playback
back to paused; a failed setDrumMix request is caught and surfaces a toast
but leaves the playback state unchanged (no fallback to paused). -/
theorem command_failure_fallback (s : AppState) (pErr dErr : String)
    (hconn : s.connectionError = false) (hsess : s.sessionReady = true)
    (hne : getPromptsToSend s ≠ []) :
    (setSessionPromptsBody true pErr s).playbackState = PlaybackState.paused ∧
    pErr ∈ (setSessionPromptsBody true pErr s).toasts ∧
    (setSessionDrumMixBody true dErr s).playbackState = s.playbackState ∧
    ("Error setting drum mix: " ++ dErr) ∈ (setSessionDrumMixBody true dErr s).toasts := by
  have hP : setSessionPromptsBody true pErr s
      = pause (addToast pErr
          { s with commands := s.commands ++ [Command.setWeightedPrompts (getPromptsToSend s)] }) := by
    unfold setSessionPromptsBody
    rw [hconn, hsess]
    simp [hne]
  refine ⟨?_, ?_, ?_, ?_⟩
  · rw [hP]; exact pause_playbackState _
  · rw [hP, pause_toasts]
    simp [addToast]
  · unfold setSessionDrumMixBody
    rw [hconn, hsess]
    simp [addToast]
  · unfold setSessionDrumMixBody
    rw [hconn, hsess]
    simp [addToast]

/-- Witness for command_failure_fallback at the connected playing baseState. -/
theorem command_failure_fallback_witness :
    (setSessionPromptsBody true "perr" baseState).playbackState = PlaybackState.paused ∧
    "perr" ∈ (setSessionPromptsBody true "perr" baseState).toasts ∧
    (setSessionDrumMixBody true "derr" baseState).playbackState = baseState.playbackState ∧
    ("Error setting drum mix: " ++ "derr") ∈ (setSessionDrumMixBody true "derr" baseState).toasts :=
  command_failure_fallback baseState "perr" "derr" rfl rfl
    (by simp [getPromptsToSend, baseState, promptA, promptZero, promptDub])

/-- C6: when the computed active subset is empty, both the prompt push and a
user play request refuse: the push and the play command are never issued
(the only command is the remote pause of the forced fallback), the
user-facing notice is surfaced, and the playback state is forced to paused. -/
theorem empty_prompts_refused (s : AppState) (fails : Bool) (errMsg : String)
    (hconn : s.connectionError = false) (hsess : s.sessionReady = true)
    (hempty : getPromptsToSend s = []) (hcmds : s.commands = []) :
    (setSessionPromptsBody fails errMsg s).playbackState = PlaybackState.paused ∧
    "There needs to be one active prompt to play."
      ∈ (setSessionPromptsBody fails errMsg s).toasts ∧
    (setSessionPromptsBody fails errMsg s).commands = [Command.pause] ∧
    (∀ ps, Command.setWeightedPrompts ps ∉ (setSessionPromptsBody fails errMsg s).commands) ∧
    Command.play ∉ (setSessionPromptsBody fails errMsg s).commands ∧
    (play s).playbackState = PlaybackState.paused ∧
    "Add some sound flavor! Turn up a knob to play music." ∈ (play s).toasts ∧
    (play s).commands = [Command.pause] ∧
    Command.play ∉ (play s).commands ∧
    (∀ ps, Command.setWeightedPrompts ps ∉ (play s).commands) := by
  have hP : setSessionPromptsBody fails errMsg s
      = pause (addToast "There needs to be one active prompt to play." s) := by
    unfold setSessionPromptsBody
    rw [hconn, hsess, hempty]
    simp
  have hPl : play s
      = pause (addToast "Add some sound flavor! Turn up a knob to play music." s) := by
    unfold play
    rw [hsess, hempty]
    simp
  have hcmdP : ∀ msg, (pause (addToast msg s)).commands = [Command.pause] := by
    intro msg
    rw [pause_commands]
    simp [addToast, hcmds, hconn, hsess]
  refine ⟨?_, ?_, ?_, ?_, ?_, ?_, ?_, ?_, ?_, ?_⟩
  · rw [hP]; exact pause_playbackState _
  · rw [hP, pause_toasts]; simp [addToast]
  · rw [hP]; exact hcmdP _
  · intro ps
    rw [hP, hcmdP]
    simp
  · rw [hP, hcmdP]
    simp
  · rw [hPl]; exact pause_playbackState _
  · rw [hPl, pause_toasts]; simp [addToast]
  · rw [hPl]; exact hcmdP _
  · rw [hPl, hcmdP]
    simp
  · intro ps
    rw [hPl, hcmdP]
    simp

/-- Witness for empty_prompts_refused at the connected state whose only
prompt has weight 0. -/
theorem empty_prompts_refused_witness :
    (setSessionPromptsBody false "" noActiveState).playbackState = PlaybackState.paused ∧
    "There needs to be one active prompt to play."
      ∈ (setSessionPromptsBody false "" noActiveState).toasts ∧
    (setSessionPromptsBody false "" noActiveState).commands = [Command.pause] ∧
    (∀ ps, Command.setWeightedPrompts ps ∉ (setSessionPromptsBody false "" noActiveState).commands) ∧
    Command.play ∉ (setSessionPromptsBody false "" noActiveState).commands ∧
    (play noActiveState).playbackState = PlaybackState.paused ∧
    "Add some sound flavor! Turn up a knob to play music." ∈ (play noActiveState).toasts ∧
    (play noActiveState).commands = [Command.pause] ∧
    Command.play ∉ (play noActiveState).commands ∧
    (∀ ps, Command.setWeightedPrompts ps ∉ (play noActiveState).commands) :=
  empty_prompts_refused noActiveState false "" rfl rfl
    (by simp [getPromptsToSend, noActiveState, baseState, promptZero]) rfl

/-- An operation that only appends to the outbound command log. -/
def CommandsExtends (f : AppState → AppState) : Prop :=
  ∀ s, ∃ t, (f s).commands = s.commands ++ t

/-- Membership in the command log survives an appending operation. -/
lemma commandsExtends_mem {f : AppState → AppState} (hf : CommandsExtends f)
    {c : Command} {s : AppState} (h : c ∈ s.commands) : c ∈ (f s).commands := by
  obtain ⟨t, ht⟩ := hf s
  rw [ht]
  exact List.mem_append_left _ h

/-- pause only appends to the command log. -/
lemma commandsExtends_pause : CommandsExtends pause := by
  intro s
  unfold pause
  split
  · exact ⟨[Command.pause], rfl⟩
  · exact ⟨[], by simp⟩

/-- stop only appends to the command log. -/
lemma commandsExtends_stop : CommandsExtends stop := by
  intro s
  unfold stop
  split
  · exact ⟨[Command.stop], rfl⟩
  · exact ⟨[], by simp⟩

/-- play only appends to the command log. -/
lemma commandsExtends_play : CommandsExtends play := by
  intro s
  unfold play
  split
  · exact ⟨[], by simp [addToast]⟩
  · split
    · obtain ⟨t, ht⟩ := commandsExtends_pause
        (addToast "Add some sound flavor! Turn up a knob to play music." s)
      exact ⟨t, by rw [ht]; rfl⟩
    · split
      · exact ⟨[Command.play], rfl⟩
      · exact ⟨[], by simp⟩

/-- setSessionPrompts only appends to the command log. -/
lemma commandsExtends_setSessionPromptsBody (fails : Bool) (errMsg : String) :
    CommandsExtends (setSessionPromptsBody fails errMsg) := by
  intro s
  unfold setSessionPromptsBody
  split
  · exact ⟨[], by simp⟩
  · split
    · obtain ⟨t, ht⟩ := commandsExtends_pause
        (addToast "There needs to be one active prompt to play." s)
      exact ⟨t, by rw [ht]; rfl⟩
    · split
      · obtain ⟨t, ht⟩ := commandsExtends_pause (addToast errMsg
          { s with commands := s.commands ++ [Command.setWeightedPrompts (getPromptsToSend s)] })
        exact ⟨[Command.setWeightedPrompts (getPromptsToSend s)] ++ t, by
          rw [ht]
          simp [addToast]⟩
      · exact ⟨[Command.setWeightedPrompts (getPromptsToSend s)], rfl⟩

/-- setSessionDrumMix only appends to the command log. -/
lemma commandsExtends_setSessionDrumMixBody (fails : Bool) (errMsg : String) :
    CommandsExtends (setSessionDrumMixBody fails errMsg) := by
  intro s
  unfold setSessionDrumMixBody
  split
  · exact ⟨[], by simp⟩
  · split
    · exact ⟨[Command.setDrumMix (drumMixToSend s.drumMixSettings)], by simp [addToast]⟩
    · exact ⟨[Command.setDrumMix (drumMixToSend s.drumMixSettings)], rfl⟩

/-- The connection error handler only appends to the command log. -/
lemma commandsExtends_onConnectionError (msg : String) :
    CommandsExtends (onConnectionError msg) := by
  intro s
  unfold onConnectionError
  obtain ⟨t, ht⟩ := commandsExtends_stop { s with connectionError := true }
  exact ⟨t, by simp [addToast, ht]⟩

/-- The setupComplete handler only appends to the command log. -/
lemma commandsExtends_onSetupComplete (dFails : Bool) (dErr : String) :
    CommandsExtends (onSetupComplete dFails dErr) := by
  intro s
  unfold onSetupComplete
  obtain ⟨t, ht⟩ := commandsExtends_setSessionDrumMixBody dFails dErr
    { s with connectionError := false }
  exact ⟨t, by simp [ht]⟩

/-- The continuation after a reconnect attempt only appends to the log. -/
lemma commandsExtends_afterReconnect (pFails dFails : Bool) (pErr dErr : String) :
    CommandsExtends (afterReconnect pFails dFails pErr dErr) := by
  intro s
  unfold afterReconnect
  split
  · obtain ⟨t1, h1⟩ := commandsExtends_setSessionPromptsBody pFails pErr s
    obtain ⟨t2, h2⟩ := commandsExtends_setSessionDrumMixBody dFails dErr
      (setSessionPromptsBody pFails pErr s)
    obtain ⟨t3, h3⟩ := commandsExtends_play
      (setSessionDrumMixBody dFails dErr (setSessionPromptsBody pFails pErr s))
    exact ⟨t1 ++ t2 ++ t3, by rw [h3, h2, h1]; simp⟩
  · exact ⟨[], by simp [addToast]⟩

/-- Every connect attempt records the connect command. -/
lemma connect_mem_connectToSessionModel (outcome : ConnectOutcome) (s : AppState) :
    Command.connect ∈ (connectToSessionModel outcome s).commands := by
  cases outcome with
  | failed e =>
    simp only [connectToSessionModel]
    exact commandsExtends_mem (commandsExtends_onConnectionError _) (by simp [sendCommand])
  | opened =>
    simp [connectToSessionModel, sendCommand]
  | openedSetupComplete dFails dErr =>
    simp only [connectToSessionModel]
    exact commandsExtends_mem (commandsExtends_onSetupComplete _ _) (by simp [sendCommand])

/-- What the error, close and connect-failure handlers leave behind. -/
lemma onConnectionError_spec (msg : String) (s : AppState) :
    (onConnectionError msg s).connectionError = true ∧
    (onConnectionError msg s).playbackState = PlaybackState.stopped ∧
    (onConnectionError msg s).nextStartTime = 0 ∧
    msg ∈ (onConnectionError msg s).toasts ∧
    (onConnectionError msg s).commands = s.commands := by
  unfold onConnectionError addToast stop
  simp

/-- C7: on a connection error, remote close or failed connect, the handler
marks the connection errored, forces a full stop (state stopped, scheduler
nextStartTime reset to the sentinel), surfaces the notice, and issues no
command at all, in particular no reconnect; the next user play request from
that state goes through the reconnect branch, so a connect attempt is made
before any further command. -/
theorem connection_error_forces_stop (s : AppState) (msg : String)
    (hcmds : s.commands = []) :
    (onConnectionError msg s).connectionError = true ∧
    (onConnectionError msg s).playbackState = PlaybackState.stopped ∧
    (onConnectionError msg s).nextStartTime = 0 ∧
    msg ∈ (onConnectionError msg s).toasts ∧
    (onConnectionError msg s).commands = [] ∧
    ∀ outcome pFails dFails pErr dErr,
      Command.connect ∈
        (handlePlayPause outcome pFails dFails pErr dErr (onConnectionError msg s)).commands := by
  obtain ⟨h1, h2, h3, h4, h5⟩ := onConnectionError_spec msg s
  refine ⟨h1, h2, h3, h4, by rw [h5, hcmds], ?_⟩
  intro outcome pFails dFails pErr dErr
  unfold handlePlayPause
  rw [h1, h2]
  simp only [reduceCtorEq, if_false, or_true, if_true, Bool.true_or, ite_false, ite_true]
  exact commandsExtends_mem (commandsExtends_afterReconnect _ _ _ _)
    (connect_mem_connectToSessionModel _ _)

/-- Witness for connection_error_forces_stop at the playing baseState. -/
theorem connection_error_forces_stop_witness :
    (onConnectionError "Connection error, please restart audio." baseState).connectionError
      = true ∧
    (onConnectionError "Connection error, please restart audio." baseState).playbackState
      = PlaybackState.stopped ∧
    (onConnectionError "Connection error, please restart audio." baseState).nextStartTime = 0 ∧
    "Connection error, please restart audio."
      ∈ (onConnectionError "Connection error, please restart audio." baseState).toasts ∧
    (onConnectionError "Connection error, please restart audio." baseState).commands = [] ∧
    ∀ outcome pFails dFails pErr dErr,
      Command.connect ∈
        (handlePlayPause outcome pFails dFails pErr dErr
          (onConnectionError "Connection error, please restart audio." baseState)).commands :=
  connection_error_forces_stop baseState "Connection error, please restart audio." rfl

/-- pause leaves the filtered-prompt set untouched. -/
lemma filteredPrompts_pause (s : AppState) :
    (pause s).filteredPrompts = s.filteredPrompts := by
  unfold pause
  split <;> rfl

/-- stop leaves the filtered-prompt set untouched. -/
lemma filteredPrompts_stop (s : AppState) :
    (stop s).filteredPrompts = s.filteredPrompts := by
  unfold stop
  split <;> rfl

/-- play leaves the filtered-prompt set untouched. -/
lemma filteredPrompts_play (s : AppState) :
    (play s).filteredPrompts = s.filteredPrompts := by
  unfold play
  split_ifs <;> simp [filteredPrompts_pause, addToast]

/-- setSessionPrompts leaves the filtered-prompt set untouched. -/
lemma filteredPrompts_setSessionPromptsBody (fails : Bool) (errMsg : String) (s : AppState) :
    (setSessionPromptsBody fails errMsg s).filteredPrompts = s.filteredPrompts := by
  unfold setSessionPromptsBody
  split_ifs <;> simp [filteredPrompts_pause, addToast]

/-- setSessionDrumMix leaves the filtered-prompt set untouched. -/
lemma filteredPrompts_setSessionDrumMixBody (fails : Bool) (errMsg : String) (s : AppState) :
    (setSessionDrumMixBody fails errMsg s).filteredPrompts = s.filteredPrompts := by
  unfold setSessionDrumMixBody
  split_ifs <;> simp [addToast]

/-- The chunk handler leaves the filtered-prompt set untouched. -/
lemma filteredPrompts_onAudioChunk (s : AppState) (now dur : ℚ) :
    ((onAudioChunk s now dur).1).filteredPrompts = s.filteredPrompts := by
  unfold onAudioChunk
  split_ifs <;> rfl

/-- The error handler leaves the filtered-prompt set untouched. -/
lemma filteredPrompts_onConnectionError (msg : String) (s : AppState) :
    (onConnectionError msg s).filteredPrompts = s.filteredPrompts := by
  unfold onConnectionError
  simp [addToast, filteredPrompts_stop]

/-- The setupComplete handler leaves the filtered-prompt set untouched. -/
lemma filteredPrompts_onSetupComplete (dFails : Bool) (dErr : String) (s : AppState) :
    (onSetupComplete dFails dErr s).filteredPrompts = s.filteredPrompts := by
  unfold onSetupComplete
  simp [filteredPrompts_setSessionDrumMixBody]

/-- A connect attempt leaves the filtered-prompt set untouched. -/
lemma filteredPrompts_connectToSessionModel (outcome : ConnectOutcome) (s : AppState) :
    (connectToSessionModel outcome s).filteredPrompts = s.filteredPrompts := by
  cases outcome <;>
    simp [connectToSessionModel, sendCommand, filteredPrompts_onConnectionError,
      filteredPrompts_onSetupComplete]

/-- The post-reconnect continuation leaves the filtered-prompt set untouched. -/
lemma filteredPrompts_afterReconnect (pFails dFails : Bool) (pErr dErr : String)
    (s : AppState) :
    (afterReconnect pFails dFails pErr dErr s).filteredPrompts = s.filteredPrompts := by
  unfold afterReconnect
  split_ifs <;>
    simp [filteredPrompts_play, filteredPrompts_setSessionDrumMixBody,
      filteredPrompts_setSessionPromptsBody, addToast]

/-- handlePlayPause leaves the filtered-prompt set untouched. -/
lemma filteredPrompts_handlePlayPause (outcome : ConnectOutcome) (pFails dFails : Bool)
    (pErr dErr : String) (s : AppState) :
    (handlePlayPause outcome pFails dFails pErr dErr s).filteredPrompts
      = s.filteredPrompts := by
  unfold handlePlayPause
  split_ifs <;>
    simp [filteredPrompts_pause, filteredPrompts_play, filteredPrompts_stop,
      filteredPrompts_afterReconnect, filteredPrompts_connectToSessionModel, addToast]

/-- resetAll leaves the filtered-prompt set untouched. -/
lemma filteredPrompts_resetAll (newPrompts : List Prompt) (pFails dFails : Bool)
    (pErr dErr : String) (s : AppState) :
    (resetAll newPrompts pFails dFails pErr dErr s).filteredPrompts
      = s.filteredPrompts := by
  unfold resetAll
  simp [addToast, filteredPrompts_setSessionDrumMixBody,
    filteredPrompts_setSessionPromptsBody]

/-- The filtered-prompt notice adds the text and removes nothing. -/
lemma onFilteredPromptMsg_adds (text reason : String) (s : AppState) :
    text ∈ (onFilteredPromptMsg text reason s).filteredPrompts ∧
    ∀ x ∈ s.filteredPrompts, x ∈ (onFilteredPromptMsg text reason s).filteredPrompts := by
  constructor
  · by_cases h : text ∈ s.filteredPrompts
    · simp [onFilteredPromptMsg, addToast, h]
    · simp [onFilteredPromptMsg, addToast, h]
  · intro x hx
    by_cases h : text ∈ s.filteredPrompts
    · simpa [onFilteredPromptMsg, addToast, h] using hx
    · simp [onFilteredPromptMsg, addToast, h]
      exact Or.inl hx

/-- C8 counterexample: resetAll, the manual reset, does not clear the
filtered-prompt set: starting from baseState with Dubstep filtered, the set
after resetAll is still the nonempty set containing Dubstep, so the claim
that a manual reset clears it is false at this input. -/
theorem reset_does_not_clear_filtered :
    (resetAll [promptA] false false "" "" baseState).filteredPrompts = ["Dubstep"] ∧
    ("Dubstep" :: ([] : List String)) ≠ ([] : List String) := by
  refine ⟨?_, by simp⟩
  rw [filteredPrompts_resetAll]
  rfl

/-- C8 (amended): the filtered-prompt set is append-only for the whole
session: each filtered-prompt notice adds the named text and keeps every
existing entry, and no other modelled operation, the manual reset resetAll
included, ever removes an entry or clears the set. -/
theorem filtered_append_only (s : AppState) (text reason msg pErr dErr : String)
    (pFails dFails fails : Bool) (now dur : ℚ) (newPrompts : List Prompt)
    (outcome : ConnectOutcome) (x : String) (hx : x ∈ s.filteredPrompts) :
    x ∈ (onFilteredPromptMsg text reason s).filteredPrompts ∧
    text ∈ (onFilteredPromptMsg text reason s).filteredPrompts ∧
    ((onAudioChunk s now dur).1).filteredPrompts = s.filteredPrompts ∧
    (fireLookaheadTimer s).filteredPrompts = s.filteredPrompts ∧
    (pause s).filteredPrompts = s.filteredPrompts ∧
    (play s).filteredPrompts = s.filteredPrompts ∧
    (stop s).filteredPrompts = s.filteredPrompts ∧
    (setSessionPromptsBody fails pErr s).filteredPrompts = s.filteredPrompts ∧
    (setSessionDrumMixBody fails dErr s).filteredPrompts = s.filteredPrompts ∧
    (onConnectionError msg s).filteredPrompts = s.filteredPrompts ∧
    (connectToSessionModel outcome s).filteredPrompts = s.filteredPrompts ∧
    (handlePlayPause outcome pFails dFails pErr dErr s).filteredPrompts = s.filteredPrompts ∧
    (resetAll newPrompts pFails dFails pErr dErr s).filteredPrompts = s.filteredPrompts :=
  ⟨(onFilteredPromptMsg_adds text reason s).2 x hx,
   (onFilteredPromptMsg_adds text reason s).1,
   filteredPrompts_onAudioChunk s now dur,
   rfl,
   filteredPrompts_pause s,
   filteredPrompts_play s,
   filteredPrompts_stop s,
   filteredPrompts_setSessionPromptsBody fails pErr s,
   filteredPrompts_setSessionDrumMixBody fails dErr s,
   filteredPrompts_onConnectionError msg s,
   filteredPrompts_connectToSessionModel outcome s,
   filteredPrompts_handlePlayPause outcome pFails dFails pErr dErr s,
   filteredPrompts_resetAll newPrompts pFails dFails pErr dErr s⟩

/-- Witness for filtered_append_only at baseState, whose filtered set
holds Dubstep. -/
theorem filtered_append_only_witness :
    "Dubstep" ∈ (onFilteredPromptMsg "K Pop" "reason" baseState).filteredPrompts ∧
    "K Pop" ∈ (onFilteredPromptMsg "K Pop" "reason" baseState).filteredPrompts ∧
    ((onAudioChunk baseState 0 2).1).filteredPrompts = baseState.filteredPrompts ∧
    (fireLookaheadTimer baseState).filteredPrompts = baseState.filteredPrompts ∧
    (pause baseState).filteredPrompts = baseState.filteredPrompts ∧
    (play baseState).filteredPrompts = baseState.filteredPrompts ∧
    (stop baseState).filteredPrompts = baseState.filteredPrompts ∧
    (setSessionPromptsBody false "p" baseState).filteredPrompts = baseState.filteredPrompts ∧
    (setSessionDrumMixBody false "d" baseState).filteredPrompts = baseState.filteredPrompts ∧
    (onConnectionError "m" baseState).filteredPrompts = baseState.filteredPrompts ∧
    (connectToSessionModel ConnectOutcome.opened baseState).filteredPrompts
      = baseState.filteredPrompts ∧
    (handlePlayPause ConnectOutcome.opened false false "p" "d" baseState).filteredPrompts
      = baseState.filteredPrompts ∧
    (resetAll [promptA] false false "p" "d" baseState).filteredPrompts
      = baseState.filteredPrompts :=
  filtered_append_only baseState "K Pop" "reason" "m" "p" "d" false false false 0 2
    [promptA] ConnectOutcome.opened "Dubstep" (by simp [baseState])

end MusicBox
